import Mathlib

/-!
Verification model of the faststream repository slice:
  faststream/broker/fastapi/router.py  (StreamRouter lifespan bridge,
    _BackgroundMiddleware, AsyncAPI docs endpoints)
  faststream/cli/main.py               (run and publish commands)

Python side effects are modelled by explicit traces: each model function
returns a record counting the broker start/stop invocations, the warnings
emitted, the hooks executed, the lines printed, and so on.  Exceptions are
modelled by truncating the trace at the raising step exactly where the
Python control flow would leave the surrounding block.
-/

namespace Faststream

/-- Values stored in the lifespan context dictionary.  The broker handle is
distinguished from ordinary host- or hook-supplied values. -/
inductive Val where
  | broker
  | num (n : Nat)
  | strv (s : String)
deriving DecidableEq

/-- A Python dict of string keys, represented as an association list in which
the entry closest to the head is the most recent write. -/
abbrev Ctx := List (String × Val)

/-- Model of a single-key dict write: the new binding shadows older ones. -/
def dictSet (c : Ctx) (k : String) (v : Val) : Ctx := (k, v) :: c

/-- Model of Python dict.update: iterate the new pairs in order, each write
shadowing previous bindings of the same key. -/
def dictUpdate (c : Ctx) (l : Ctx) : Ctx :=
  l.foldl (fun acc p => dictSet acc p.1 p.2) c

/-- Model of dict lookup: the most recent write of the key wins. -/
def dictLookup (c : Ctx) (k : String) : Option Val :=
  (c.find? (fun p => p.1 == k)).map Prod.snd

/-- Observable behaviour of one registered after-startup hook: it either
returns an optional mapping (None or a dict) or raises. -/
inductive HookBeh where
  | ret (m : Option Ctx)
  | raises
deriving DecidableEq

/-- Model of the after-startup hook loop in start_broker_lifespan (router.py
lines 322-325): run hooks in registration order, merging each truthy result
into the context; a raising hook aborts the loop.  Returns the number of
hooks invoked and the final context (none when some hook raised). -/
def runAfterHooks : Ctx → List HookBeh → Nat × Option Ctx
  | ctx, [] => (0, some ctx)
  | _, HookBeh.raises :: _ => (1, none)
  | ctx, HookBeh.ret m :: rest =>
      let ctx2 := match m with
        | some l => if l.isEmpty then ctx else dictUpdate ctx l
        | none => ctx
      let r := runAfterHooks ctx2 rest
      (r.1 + 1, r.2)

/-- True when no hook in the list raises. -/
def afterHooksOk : List HookBeh → Bool
  | [] => true
  | HookBeh.raises :: _ => false
  | HookBeh.ret _ :: rest => afterHooksOk rest

/-- Model of the on-shutdown hook loop (router.py lines 334-335): each entry
is true when that hook raises.  Returns the number of hooks invoked (the loop
stops at the first raising hook) and whether an exception escaped the loop. -/
def runShutdownHooks : List Bool → Nat × Bool
  | [] => (0, false)
  | true :: _ => (1, true)
  | false :: rest =>
      let r := runShutdownHooks rest
      (r.1 + 1, r.2)

/-- The lifespan context right after merging the host-supplied context and
installing the broker handle (router.py lines 306-311): dict(maybe_context)
followed by context.update with the broker binding. -/
def initialCtx (hostCtx : Option Ctx) : Ctx :=
  let ctx0 : Ctx := match hostCtx with
    | none => []
    | some m => dictUpdate [] m
  dictUpdate ctx0 [("broker", Val.broker)]

/-- Inputs determining one pass through start_broker_lifespan: the value of
the _lifespan_started flag on entry, the context yielded by the wrapped host
lifespan, whether broker.start raises, the after-startup hook behaviours,
whether the host scope itself raises at the yield, and which on-shutdown
hooks raise. -/
structure LifespanInput where
  startedBefore : Bool
  hostCtx : Option Ctx
  startFails : Bool
  afterHooks : List HookBeh
  bodyRaises : Bool
  shutdownHooks : List Bool
deriving DecidableEq

/-- Observable trace of one pass through start_broker_lifespan. -/
structure LifespanResult where
  startCalls : Nat
  warnCalls : Nat
  stopCalls : Nat
  afterHooksRun : Nat
  shutdownHooksRun : Nat
  startedAfter : Bool
  yielded : Option Ctx
  raised : Bool
deriving DecidableEq

/-- Model of StreamRouter._wrap_lifespan.start_broker_lifespan (router.py
lines 305-338), entered at the `async with lifespan_context(app)` body.
Builds the context, starts the broker exactly when the _lifespan_started
flag is unset (warning instead when it is set), runs the after-startup
hooks, yields the context to the host, runs the on-shutdown hooks, and
invokes broker.stop in the `finally` of the try block that encloses the
yield and the shutdown hooks — so stop runs once the try block was entered,
however the block exits. -/
def start_broker_lifespan (inp : LifespanInput) : LifespanResult :=
  let ctx1 := initialCtx inp.hostCtx
  if !inp.startedBefore && inp.startFails then
    { startCalls := 1, warnCalls := 0, stopCalls := 0, afterHooksRun := 0,
      shutdownHooksRun := 0, startedAfter := false, yielded := none,
      raised := true }
  else
    let startCalls : Nat := if inp.startedBefore then 0 else 1
    let warnCalls : Nat := if inp.startedBefore then 1 else 0
    let hres := runAfterHooks ctx1 inp.afterHooks
    match hres.2 with
    | none =>
        { startCalls := startCalls, warnCalls := warnCalls, stopCalls := 0,
          afterHooksRun := hres.1, shutdownHooksRun := 0, startedAfter := true,
          yielded := none, raised := true }
    | some ctx2 =>
        if inp.bodyRaises then
          { startCalls := startCalls, warnCalls := warnCalls, stopCalls := 1,
            afterHooksRun := hres.1, shutdownHooksRun := 0,
            startedAfter := true, yielded := some ctx2, raised := true }
        else
          let sres := runShutdownHooks inp.shutdownHooks
          { startCalls := startCalls, warnCalls := warnCalls, stopCalls := 1,
            afterHooksRun := hres.1, shutdownHooksRun := sres.1,
            startedAfter := true, yielded := some ctx2, raised := sres.2 }

/-- Exception information reaching an __aexit__ handler: either the scope
completed normally or some exception type is present. -/
inductive ExcInfo where
  | noExc
  | exc (name : String)
deriving DecidableEq

/-- Model of _BackgroundMiddleware.__aexit__ (router.py lines 68-83).  The
argument `background` is the optional deferred-work object attached to the
current message.  Returns whether `await background()` was executed: the
source guards the await with `if not exc_type and (background := ...)`. -/
def BackgroundMiddleware.aexit (excType : ExcInfo) (background : Option Nat) : Bool :=
  match excType with
  | ExcInfo.noExc =>
      match background with
      | some _ => true
      | none => false
  | ExcInfo.exc _ => false

/-- The kind of application object the run command resolved. -/
inductive AppKind where
  | fastStream
  | asgiFastStream
  | other
deriving DecidableEq

/-- Errors the run command can raise before any worker is spawned. -/
inductive CliError where
  | importError
  | setupError (msg : String)
  | badParameter (msg : String)
deriving DecidableEq

/-- Inputs to the run command that the modelled control flow depends on. -/
structure RunInput where
  workers : Nat
  reload : Bool
  importOk : Bool
  watchfilesAvailable : Bool
  appKind : AppKind
deriving DecidableEq

/-- Observable trace of the run command dispatch: which supervisor was
started and which error, if any, was raised. -/
structure RunTrace where
  reloaderStarted : Bool
  multiprocessStarted : Bool
  singleRan : Bool
  error : Option CliError
deriving DecidableEq

/-- Message of the SetupError raised for reload combined with workers > 1
(main.py line 138). -/
def reloadWorkersMsg : String := "You can\x27t use reload option with multiprocessing"

/-- Model of the run command dispatch (main.py lines 118-188): import the
application, reject reload combined with more than one worker, then start
the watch reloader, the multiprocess supervisor, or run the application
directly.  An unavailable watchfiles backend degrades to a single direct
run after a warning. -/
def run (inp : RunInput) : RunTrace :=
  if !inp.importOk then
    { reloaderStarted := false, multiprocessStarted := false,
      singleRan := false, error := some CliError.importError }
  else if inp.reload ∧ 1 < inp.workers then
    { reloaderStarted := false, multiprocessStarted := false,
      singleRan := false, error := some (CliError.setupError reloadWorkersMsg) }
  else if inp.reload then
    if inp.watchfilesAvailable then
      { reloaderStarted := true, multiprocessStarted := false,
        singleRan := false, error := none }
    else
      { reloaderStarted := false, multiprocessStarted := false,
        singleRan := true, error := none }
  else if 1 < inp.workers then
    match inp.appKind with
    | AppKind.fastStream =>
        { reloaderStarted := false, multiprocessStarted := true,
          singleRan := false, error := none }
    | AppKind.asgiFastStream =>
        { reloaderStarted := false, multiprocessStarted := true,
          singleRan := false, error := none }
    | AppKind.other =>
        { reloaderStarted := false, multiprocessStarted := false,
          singleRan := false, error := some (CliError.badParameter
            "Unexpected app type, expected FastStream or AsgiFastStream") }
  else
    { reloaderStarted := false, multiprocessStarted := false,
      singleRan := true, error := none }

/-- Modelled from the spec: the CLI harness that turns an exception escaping
the run command into a process exit status is not part of the sources under
review (it lives in the external Typer framework).  Per the spec, a
configuration, import or validation error makes the process exit with code 1
and a fully successful dispatch exits 0. -/
def cliExitCode (t : RunTrace) : Nat :=
  match t.error with
  | some _ => 1
  | none => 0

/-- Abstract AsyncAPI schema document stored on the router once the lifespan
has built it (router.py line 301). -/
structure Schema where
  jsonable : String
  yamlText : String
  title : String
deriving DecidableEq

/-- Display toggles of the HTML documentation page (router.py lines 442-450). -/
structure SchemaViewToggles where
  sidebar : Bool
  info : Bool
  servers : Bool
  operations : Bool
  messages : Bool
  schemas : Bool
  errors : Bool
  expandMessageExamples : Bool
deriving DecidableEq

/-- Responses the documentation endpoints can produce; rendering of the
schema to JSON, YAML or HTML is external, so responses carry the schema and
toggles abstractly. -/
inductive DocsResponse where
  | jsonSchemaOf (s : Schema)
  | yamlSchemaOf (s : Schema)
  | htmlPageOf (s : Schema) (t : SchemaViewToggles)
deriving DecidableEq

/-- Assertion message of the three documentation endpoints. -/
def lifespanAssertMsg : String := "You need to run application lifespan at first"

/-- Model of download_app_json_schema (router.py lines 420-428): asserts the
stored schema is set, then serves it. -/
def download_app_json_schema (schema : Option Schema) : Except String DocsResponse :=
  match schema with
  | none => Except.error lifespanAssertMsg
  | some s => Except.ok (DocsResponse.jsonSchemaOf s)

/-- Model of download_app_yaml_schema (router.py lines 430-440). -/
def download_app_yaml_schema (schema : Option Schema) : Except String DocsResponse :=
  match schema with
  | none => Except.error lifespanAssertMsg
  | some s => Except.ok (DocsResponse.yamlSchemaOf s)

/-- Model of serve_asyncapi_schema (router.py lines 442-470). -/
def serve_asyncapi_schema (schema : Option Schema) (t : SchemaViewToggles) :
    Except String DocsResponse :=
  match schema with
  | none => Except.error lifespanAssertMsg
  | some s => Except.ok (DocsResponse.htmlPageOf s t)

/-- Behaviour of the broker inside `async with broker: await broker.publish`
in publish_message: entering the context (connect) may raise, the publish or
reply-wait may raise, or the publish returns a reply value. -/
inductive PublishBeh where
  | connectRaises (msg : String)
  | publishRaises (msg : String)
  | ok (reply : String)
deriving DecidableEq

/-- True when the broker behaviour raises during connect, publish or
reply-wait. -/
def behRaises : PublishBeh → Bool
  | PublishBeh.ok _ => false
  | _ => true

/-- Trace of publish_message: connection and publish attempt counts, whether
the connection was acquired, release count, printed lines, and the returned
reply (none when sys.exit(1) fired inside). -/
structure PMRes where
  connectCalls : Nat
  connectOk : Bool
  releaseCalls : Nat
  publishCalls : Nat
  printed : List String
  result : Option String
deriving DecidableEq

/-- Diagnostic prefix printed by publish_message on failure (main.py
line 312). -/
def publishInnerMsg : String := "Error when broker was publishing: "

/-- Model of publish_message (main.py lines 307-313): `async with broker`
acquires the connection and guarantees release once acquired; any exception
is caught, one diagnostic line is printed and sys.exit(1) fires (modelled by
result = none).  No retry of connect or publish occurs. -/
def publish_message (beh : PublishBeh) : PMRes :=
  match beh with
  | PublishBeh.connectRaises m =>
      { connectCalls := 1, connectOk := false, releaseCalls := 0,
        publishCalls := 0, printed := [publishInnerMsg ++ m], result := none }
  | PublishBeh.publishRaises m =>
      { connectCalls := 1, connectOk := true, releaseCalls := 1,
        publishCalls := 1, printed := [publishInnerMsg ++ m], result := none }
  | PublishBeh.ok r =>
      { connectCalls := 1, connectOk := true, releaseCalls := 1,
        publishCalls := 1, printed := [], result := some r }

/-- Inputs to the publish command. -/
structure PublishInput where
  appStr : String
  message : String
  rpc : Bool
  importOk : Bool
  importErrMsg : String
  hasBroker : Bool
  beh : PublishBeh
deriving DecidableEq

/-- Observable trace of the publish command. -/
structure PublishTrace where
  connectCalls : Nat
  connectOk : Bool
  releaseCalls : Nat
  publishCalls : Nat
  printed : List String
  exitCode : Nat
deriving DecidableEq

/-- Diagnostic prefix of the publish command error handler (main.py
line 303). -/
def publishErrMsg : String := "Publish error: "

/-- Diagnostic for a missing broker (main.py line 295). -/
def brokerNotFoundMsg : String := "Broker instance not found in the app."

/-- Model of the publish command (main.py lines 264-304): validate the app
and message arguments, import the application, require a broker, run
publish_message, and in RPC mode echo the reply.  Any exception inside the
try block prints one `Publish error:` line and exits 1; a SystemExit from
publish_message is not caught by the `except Exception` handler and
terminates the process with code 1. -/
def publish (inp : PublishInput) : PublishTrace :=
  if inp.appStr = "" then
    { connectCalls := 0, connectOk := false, releaseCalls := 0,
      publishCalls := 0,
      printed := [publishErrMsg ++ "App parameter is required."],
      exitCode := 1 }
  else if inp.message = "" then
    { connectCalls := 0, connectOk := false, releaseCalls := 0,
      publishCalls := 0,
      printed := [publishErrMsg ++ "Message parameter is required."],
      exitCode := 1 }
  else if !inp.importOk then
    { connectCalls := 0, connectOk := false, releaseCalls := 0,
      publishCalls := 0,
      printed := [publishErrMsg ++ inp.importErrMsg], exitCode := 1 }
  else if !inp.hasBroker then
    { connectCalls := 0, connectOk := false, releaseCalls := 0,
      publishCalls := 0,
      printed := [publishErrMsg ++ brokerNotFoundMsg], exitCode := 1 }
  else
    let r := publish_message inp.beh
    match r.result with
    | none =>
        { connectCalls := r.connectCalls, connectOk := r.connectOk,
          releaseCalls := r.releaseCalls, publishCalls := r.publishCalls,
          printed := r.printed, exitCode := 1 }
    | some reply =>
        { connectCalls := r.connectCalls, connectOk := r.connectOk,
          releaseCalls := r.releaseCalls, publishCalls := r.publishCalls,
          printed := if inp.rpc then r.printed ++ [reply] else r.printed,
          exitCode := 0 }

theorem dictUpdate_nil (c : Ctx) : dictUpdate c [] = c := rfl

theorem dictUpdate_append (c l1 l2 : Ctx) :
    dictUpdate c (l1 ++ l2) = dictUpdate (dictUpdate c l1) l2 := by
  simp [dictUpdate, List.foldl_append]

theorem dictUpdate_eq_append (l : Ctx) : ∀ c : Ctx, dictUpdate c l = l.reverse ++ c := by
  induction l with
  | nil => intro c; rfl
  | cons p rest ih =>
      intro c
      calc dictUpdate c (p :: rest) = dictUpdate (p :: c) rest := rfl
        _ = rest.reverse ++ (p :: c) := ih (p :: c)
        _ = (p :: rest).reverse ++ c := by simp

theorem dictLookup_append (a b : Ctx) (k : String) :
    dictLookup (a ++ b) k =
      match a.find? (fun p => p.1 == k) with
      | some p => some p.2
      | none => dictLookup b k := by
  cases h : a.find? (fun p => p.1 == k) with
  | none => simp [dictLookup, List.find?_append, h, Option.or]
  | some p => simp [dictLookup, List.find?_append, h, Option.or]

theorem dictLookup_dictUpdate (c l : Ctx) (k : String) :
    dictLookup (dictUpdate c l) k =
      match l.reverse.find? (fun p => p.1 == k) with
      | some p => some p.2
      | none => dictLookup c k := by
  rw [dictUpdate_eq_append, dictLookup_append]

theorem runAfterHooks_map_ret (ms : List Ctx) :
    ∀ c : Ctx,
      runAfterHooks c (ms.map (fun m => HookBeh.ret (some m))) =
        (ms.length, some (dictUpdate c ms.flatten)) := by
  induction ms with
  | nil => intro c; rfl
  | cons m rest ih =>
      intro c
      have hstep : runAfterHooks c ((m :: rest).map (fun m => HookBeh.ret (some m))) =
          ((runAfterHooks (if m.isEmpty then c else dictUpdate c m)
              (rest.map (fun m => HookBeh.ret (some m)))).1 + 1,
           (runAfterHooks (if m.isEmpty then c else dictUpdate c m)
              (rest.map (fun m => HookBeh.ret (some m)))).2) := rfl
      have hctx : (if m.isEmpty then c else dictUpdate c m) = dictUpdate c m := by
        cases m with
        | nil => simp [dictUpdate_nil]
        | cons p r => simp [List.isEmpty]
      rw [hstep, hctx, ih (dictUpdate c m)]
      simp [List.flatten, dictUpdate_append]

theorem runAfterHooks_ok (hs : List HookBeh) (h : afterHooksOk hs = true) :
    ∀ c : Ctx, ∃ c2, (runAfterHooks c hs).2 = some c2 := by
  induction hs with
  | nil => intro c; exact ⟨c, rfl⟩
  | cons b rest ih =>
      intro c
      cases b with
      | raises => simp [afterHooksOk] at h
      | ret m =>
          have h2 : afterHooksOk rest = true := h
          cases m with
          | none =>
              obtain ⟨c2, hc2⟩ := ih h2 c
              refine ⟨c2, ?_⟩
              simpa [runAfterHooks] using hc2
          | some l =>
              obtain ⟨c2, hc2⟩ := ih h2 (if l.isEmpty then c else dictUpdate c l)
              refine ⟨c2, ?_⟩
              simpa [runAfterHooks] using hc2

/-- C1: in any lifespan scope whose after-startup phase completes, broker
stop is invoked exactly once during shutdown when broker start previously
succeeded (whether because start succeeded in this scope or the started flag
was already set), for every sequence of on-shutdown hooks, raising or not,
and also when the host scope itself raises; and broker stop is never invoked
when start did not previously succeed. -/
theorem broker_stop_iff_start_succeeded (inp : LifespanInput)
    (hA : afterHooksOk inp.afterHooks = true) :
    (start_broker_lifespan inp).stopCalls =
      if inp.startedBefore = true ∨ inp.startFails = false then 1 else 0 := by
  rcases inp with ⟨sb, hc, sf, ah, br, sh⟩
  simp only at hA
  cases sb with
  | false =>
      cases sf with
      | true => simp [start_broker_lifespan]
      | false =>
          obtain ⟨c2, hc2⟩ := runAfterHooks_ok ah hA (initialCtx hc)
          cases br <;> simp [start_broker_lifespan, hc2]
  | true =>
      obtain ⟨c2, hc2⟩ := runAfterHooks_ok ah hA (initialCtx hc)
      cases br <;> simp [start_broker_lifespan, hc2]

/-- Witness for C1 at a concrete scope with a raising on-shutdown hook. -/
theorem broker_stop_iff_start_succeeded_witness :
    afterHooksOk ([HookBeh.ret none]) = true ∧
    (start_broker_lifespan
        ⟨false, none, false, [HookBeh.ret none], false, [true]⟩).stopCalls =
      if (false : Bool) = true ∨ (false : Bool) = false then 1 else 0 :=
  ⟨by decide,
   broker_stop_iff_start_succeeded
     ⟨false, none, false, [HookBeh.ret none], false, [true]⟩ (by decide)⟩

/-- C2: a first startup pass with the flag unset and a succeeding broker
start invokes start once and warns zero times; a second pass entered with
the flag left by the first pass invokes start zero times, emits exactly one
compatibility warning, and leaves the scope marked initialized — so across
both entries broker start runs exactly once and exactly one warning is
emitted. -/
theorem double_invocation_single_start (inp1 inp2 : LifespanInput)
    (h1 : inp1.startedBefore = false) (h2 : inp1.startFails = false)
    (h3 : inp2.startedBefore = (start_broker_lifespan inp1).startedAfter) :
    (start_broker_lifespan inp1).startCalls = 1 ∧
    (start_broker_lifespan inp1).warnCalls = 0 ∧
    (start_broker_lifespan inp2).startCalls = 0 ∧
    (start_broker_lifespan inp2).warnCalls = 1 ∧
    (start_broker_lifespan inp2).startedAfter = true := by
  rcases inp1 with ⟨sb1, hc1, sf1, ah1, br1, sh1⟩
  rcases inp2 with ⟨sb2, hc2, sf2, ah2, br2, sh2⟩
  simp only at h1 h2 h3
  subst h1 h2
  have hafter : (start_broker_lifespan ⟨false, hc1, false, ah1, br1, sh1⟩).startedAfter
      = true := by
    cases hh : (runAfterHooks (initialCtx hc1) ah1).2 with
    | none => cases br1 <;> simp [start_broker_lifespan, hh]
    | some c2 => cases br1 <;> simp [start_broker_lifespan, hh]
  have hsb2 : sb2 = true := by rw [hafter] at h3; exact h3
  subst hsb2
  have h1c : (start_broker_lifespan ⟨false, hc1, false, ah1, br1, sh1⟩).startCalls = 1 ∧
      (start_broker_lifespan ⟨false, hc1, false, ah1, br1, sh1⟩).warnCalls = 0 := by
    cases hh : (runAfterHooks (initialCtx hc1) ah1).2 with
    | none => cases br1 <;> simp [start_broker_lifespan, hh]
    | some c2 => cases br1 <;> simp [start_broker_lifespan, hh]
  have h2c : (start_broker_lifespan ⟨true, hc2, sf2, ah2, br2, sh2⟩).startCalls = 0 ∧
      (start_broker_lifespan ⟨true, hc2, sf2, ah2, br2, sh2⟩).warnCalls = 1 ∧
      (start_broker_lifespan ⟨true, hc2, sf2, ah2, br2, sh2⟩).startedAfter = true := by
    cases hh : (runAfterHooks (initialCtx hc2) ah2).2 with
    | none => cases br2 <;> simp [start_broker_lifespan, hh]
    | some c2 => cases br2 <;> simp [start_broker_lifespan, hh]
  exact ⟨h1c.1, h1c.2, h2c.1, h2c.2.1, h2c.2.2⟩

/-- Witness for C2: two concrete passes, the second entered with the flag set
by the first. -/
theorem double_invocation_single_start_witness :
    (start_broker_lifespan ⟨false, none, false, [], false, []⟩).startCalls = 1 ∧
    (start_broker_lifespan ⟨false, none, false, [], false, []⟩).warnCalls = 0 ∧
    (start_broker_lifespan ⟨true, none, false, [], false, []⟩).startCalls = 0 ∧
    (start_broker_lifespan ⟨true, none, false, [], false, []⟩).warnCalls = 1 ∧
    (start_broker_lifespan ⟨true, none, false, [], false, []⟩).startedAfter = true :=
  double_invocation_single_start
    ⟨false, none, false, [], false, []⟩
    ⟨true, none, false, [], false, []⟩ rfl rfl (by decide)

/-- C10: when broker start raises on a first startup pass, the started flag
remains unset, no after-startup hook runs, broker stop is not invoked for
that pass, and a subsequent pass (entered with the flag the failed pass left
behind) invokes broker start again and does not warn. -/
theorem failed_start_leaves_state (inp inp2 : LifespanInput)
    (h1 : inp.startedBefore = false) (h2 : inp.startFails = true)
    (h3 : inp2.startedBefore = (start_broker_lifespan inp).startedAfter)
    (h4 : inp2.startFails = false) :
    (start_broker_lifespan inp).startedAfter = false ∧
    (start_broker_lifespan inp).afterHooksRun = 0 ∧
    (start_broker_lifespan inp).stopCalls = 0 ∧
    (start_broker_lifespan inp).startCalls = 1 ∧
    (start_broker_lifespan inp).raised = true ∧
    (start_broker_lifespan inp2).startCalls = 1 ∧
    (start_broker_lifespan inp2).warnCalls = 0 := by
  rcases inp with ⟨sb, hc, sf, ah, br, sh⟩
  rcases inp2 with ⟨sb2, hc2, sf2, ah2, br2, sh2⟩
  simp only at h1 h2 h3 h4
  subst h1 h2 h4
  have hfirst : start_broker_lifespan ⟨false, hc, true, ah, br, sh⟩ =
      { startCalls := 1, warnCalls := 0, stopCalls := 0, afterHooksRun := 0,
        shutdownHooksRun := 0, startedAfter := false, yielded := none,
        raised := true } := by
    simp [start_broker_lifespan]
  have hsb2 : sb2 = false := by rw [hfirst] at h3; exact h3
  subst hsb2
  have h2c : (start_broker_lifespan ⟨false, hc2, false, ah2, br2, sh2⟩).startCalls = 1 ∧
      (start_broker_lifespan ⟨false, hc2, false, ah2, br2, sh2⟩).warnCalls = 0 := by
    cases hh : (runAfterHooks (initialCtx hc2) ah2).2 with
    | none => cases br2 <;> simp [start_broker_lifespan, hh]
    | some c2 => cases br2 <;> simp [start_broker_lifespan, hh]
  rw [hfirst]
  exact ⟨rfl, rfl, rfl, rfl, rfl, h2c.1, h2c.2⟩

/-- Witness for C10: a concrete failed first pass followed by a retry. -/
theorem failed_start_leaves_state_witness :
    (start_broker_lifespan ⟨false, none, true, [HookBeh.ret none], false, []⟩).startedAfter
        = false ∧
    (start_broker_lifespan ⟨false, none, true, [HookBeh.ret none], false, []⟩).afterHooksRun
        = 0 ∧
    (start_broker_lifespan ⟨false, none, true, [HookBeh.ret none], false, []⟩).stopCalls
        = 0 ∧
    (start_broker_lifespan ⟨false, none, true, [HookBeh.ret none], false, []⟩).startCalls
        = 1 ∧
    (start_broker_lifespan ⟨false, none, true, [HookBeh.ret none], false, []⟩).raised
        = true ∧
    (start_broker_lifespan ⟨false, none, false, [], false, []⟩).startCalls = 1 ∧
    (start_broker_lifespan ⟨false, none, false, [], false, []⟩).warnCalls = 0 :=
  failed_start_leaves_state
    ⟨false, none, true, [HookBeh.ret none], false, []⟩
    ⟨false, none, false, [], false, []⟩ rfl rfl (by decide) rfl

theorem lifespan_yield_of_ret_hooks (inp : LifespanInput) (ms : List Ctx)
    (h1 : inp.startedBefore = false) (h2 : inp.startFails = false)
    (h3 : inp.afterHooks = ms.map (fun m => HookBeh.ret (some m))) :
    (start_broker_lifespan inp).afterHooksRun = ms.length ∧
    (start_broker_lifespan inp).yielded =
      some (dictUpdate (initialCtx inp.hostCtx) ms.flatten) := by
  rcases inp with ⟨sb, hc, sf, ah, br, sh⟩
  simp only at h1 h2 h3
  subst h1 h2 h3
  have hrun := runAfterHooks_map_ret ms (initialCtx hc)
  cases br <;>
    simp [start_broker_lifespan, hrun]

/-- C3: when every registered after-startup hook returns a mapping, the
hooks all execute in registration order, the yielded lifespan context is the
initial context updated by the hook mappings in sequence, and a lookup in
the final context returns the most recent binding across the concatenated
hook mappings — so on a key collision the later-registered hook wins — with
the initial context as fallback.  In particular with hook A returning x = 1
and hook B, registered after A, returning x = 2, the final context maps x
to 2. -/
theorem after_startup_hooks_merge :
    (∀ (inp : LifespanInput) (ms : List Ctx),
      inp.startedBefore = false → inp.startFails = false →
      inp.afterHooks = ms.map (fun m => HookBeh.ret (some m)) →
      (start_broker_lifespan inp).afterHooksRun = ms.length ∧
      (start_broker_lifespan inp).yielded =
        some (dictUpdate (initialCtx inp.hostCtx) ms.flatten) ∧
      (∀ k, dictLookup (dictUpdate (initialCtx inp.hostCtx) ms.flatten) k =
        match ms.flatten.reverse.find? (fun p => p.1 == k) with
        | some p => some p.2
        | none => dictLookup (initialCtx inp.hostCtx) k)) ∧
    (∀ (inp : LifespanInput),
      inp.startedBefore = false → inp.startFails = false →
      inp.afterHooks = [HookBeh.ret (some [("x", Val.num 1)]),
                        HookBeh.ret (some [("x", Val.num 2)])] →
      ∃ c, (start_broker_lifespan inp).yielded = some c ∧
        dictLookup c "x" = some (Val.num 2)) := by
  constructor
  · intro inp ms h1 h2 h3
    obtain ⟨ha, hb⟩ := lifespan_yield_of_ret_hooks inp ms h1 h2 h3
    exact ⟨ha, hb, fun k => dictLookup_dictUpdate (initialCtx inp.hostCtx) ms.flatten k⟩
  · intro inp h1 h2 h3
    have h3m : inp.afterHooks =
        ([[("x", Val.num 1)], [("x", Val.num 2)]] : List Ctx).map
          (fun m => HookBeh.ret (some m)) := h3
    obtain ⟨_, hb⟩ := lifespan_yield_of_ret_hooks inp
      [[("x", Val.num 1)], [("x", Val.num 2)]] h1 h2 h3m
    refine ⟨_, hb, ?_⟩
    rw [dictLookup_dictUpdate]
    rfl

/-- Witness for C3 at a concrete scope whose host context also binds x. -/
theorem after_startup_hooks_merge_witness :
    ∃ c, (start_broker_lifespan
        ⟨false, some [("x", Val.num 0)], false,
          [HookBeh.ret (some [("x", Val.num 1)]),
           HookBeh.ret (some [("x", Val.num 2)])], false, []⟩).yielded = some c ∧
      dictLookup c "x" = some (Val.num 2) :=
  after_startup_hooks_merge.2
    ⟨false, some [("x", Val.num 0)], false,
      [HookBeh.ret (some [("x", Val.num 1)]),
       HookBeh.ret (some [("x", Val.num 2)])], false, []⟩ rfl rfl rfl

/-- C9: right after the host-supplied context is merged, the context maps
the key broker to the broker handle, overriding any host-supplied binding of
that key; and when some after-startup hook returns a mapping whose most
recent binding of the key broker is v (no later hook rebinding it), the
final context handed to the host maps broker to v instead of the handle. -/
theorem broker_key_override :
    (∀ host : Option Ctx, dictLookup (initialCtx host) "broker" = some Val.broker) ∧
    (∀ (inp : LifespanInput) (ms : List Ctx) (v : Val),
      inp.startedBefore = false → inp.startFails = false →
      inp.afterHooks = ms.map (fun m => HookBeh.ret (some m)) →
      ms.flatten.reverse.find? (fun p => p.1 == "broker") = some ("broker", v) →
      ∃ c, (start_broker_lifespan inp).yielded = some c ∧
        dictLookup c "broker" = some v) := by
  constructor
  · intro host
    have hshape : initialCtx host = ("broker", Val.broker) ::
        (match host with
          | none => ([] : Ctx)
          | some m => dictUpdate [] m) := rfl
    rw [hshape]
    simp [dictLookup]
  · intro inp ms v h1 h2 h3 hfind
    obtain ⟨_, hb⟩ := lifespan_yield_of_ret_hooks inp ms h1 h2 h3
    refine ⟨_, hb, ?_⟩
    rw [dictLookup_dictUpdate, hfind]

/-- Witness for C9: one hook rebinding the broker key to the value 7. -/
theorem broker_key_override_witness :
    ∃ c, (start_broker_lifespan
        ⟨false, some [("broker", Val.num 3)], false,
          [HookBeh.ret (some [("broker", Val.num 7)])], false, []⟩).yielded
        = some c ∧
      dictLookup c "broker" = some (Val.num 7) :=
  broker_key_override.2
    ⟨false, some [("broker", Val.num 3)], false,
      [HookBeh.ret (some [("broker", Val.num 7)])], false, []⟩
    [[("broker", Val.num 7)]] (Val.num 7) rfl rfl rfl (by decide)

/-- C4 counterexample: a message scope completing with an exception and with
deferred background work attached does not await that work — refuting the
claim that deferred work is awaited on faulted completion as well. -/
theorem background_not_awaited_on_fault :
    BackgroundMiddleware.aexit (ExcInfo.exc "ValueError") (some 0) = false := rfl

/-- C4 amended: deferred background work attached to the current message is
awaited before the scope closes exactly when the scope completes normally
and work is attached; on faulted completion the work is not awaited. -/
theorem background_awaited_iff_normal (excType : ExcInfo) (background : Option Nat) :
    BackgroundMiddleware.aexit excType background = true ↔
      excType = ExcInfo.noExc ∧ background.isSome = true := by
  cases excType <;> cases background <;> simp [BackgroundMiddleware.aexit]

/-- C5: with a resolvable application, the reload flag combined with more
than one worker makes the run command raise the multiprocessing SetupError
with neither the watch reloader nor a multiprocess supervisor started and
no direct run performed, and the process exits with code 1. -/
theorem reload_workers_rejected (inp : RunInput) (h1 : inp.importOk = true)
    (h2 : inp.reload = true) (h3 : 1 < inp.workers) :
    run inp =
      { reloaderStarted := false, multiprocessStarted := false,
        singleRan := false, error := some (CliError.setupError reloadWorkersMsg) } ∧
    cliExitCode (run inp) = 1 := by
  rcases inp with ⟨w, r, imp, wf, ak⟩
  simp only at h1 h2 h3
  subst h1 h2
  constructor
  · simp [run, h3]
  · simp [run, cliExitCode, h3]

/-- Witness for C5 at two workers. -/
theorem reload_workers_rejected_witness :
    run ⟨2, true, true, true, AppKind.fastStream⟩ =
      { reloaderStarted := false, multiprocessStarted := false,
        singleRan := false, error := some (CliError.setupError reloadWorkersMsg) } ∧
    cliExitCode (run ⟨2, true, true, true, AppKind.fastStream⟩) = 1 :=
  reload_workers_rejected ⟨2, true, true, true, AppKind.fastStream⟩ rfl rfl
    (by decide)

/-- C6: each of the three documentation endpoints fails with the
lifespan-not-run assertion message while the stored schema is still unset,
for every combination of display toggles, and returns no content in that
state. -/
theorem docs_endpoints_require_lifespan (t : SchemaViewToggles) :
    download_app_json_schema none = Except.error lifespanAssertMsg ∧
    download_app_yaml_schema none = Except.error lifespanAssertMsg ∧
    serve_asyncapi_schema none t = Except.error lifespanAssertMsg :=
  ⟨rfl, rfl, rfl⟩

/-- C7: with valid arguments and a resolvable application, the publish
command exits 1 printing the broker-not-found diagnostic when the app has no
broker; on a successful publish it exits 0, printing the received reply in
RPC mode and nothing otherwise. -/
theorem publish_command_outcomes (inp : PublishInput)
    (h1 : inp.appStr ≠ "") (h2 : inp.message ≠ "") (h3 : inp.importOk = true) :
    (inp.hasBroker = false →
      publish inp =
        { connectCalls := 0, connectOk := false, releaseCalls := 0,
          publishCalls := 0, printed := [publishErrMsg ++ brokerNotFoundMsg],
          exitCode := 1 }) ∧
    (∀ r, inp.hasBroker = true → inp.beh = PublishBeh.ok r → inp.rpc = true →
      (publish inp).printed = [r] ∧ (publish inp).exitCode = 0) ∧
    (∀ r, inp.hasBroker = true → inp.beh = PublishBeh.ok r → inp.rpc = false →
      (publish inp).printed = [] ∧ (publish inp).exitCode = 0) := by
  rcases inp with ⟨a, m, rpc, imp, iem, hb, beh⟩
  simp only at h1 h2 h3 ⊢
  subst h3
  refine ⟨?_, ?_, ?_⟩
  · intro hb0
    subst hb0
    simp [publish, h1, h2]
  · intro r hb1 hbeh hrpc
    subst hb1 hbeh hrpc
    simp [publish, publish_message, h1, h2]
  · intro r hb1 hbeh hrpc
    subst hb1 hbeh hrpc
    simp [publish, publish_message, h1, h2]

/-- Witness for C7: a missing broker, an RPC publish and a fire-and-forget
publish, each at concrete inputs. -/
theorem publish_command_outcomes_witness :
    publish ⟨"main:app", "hello", false, true, "", false, PublishBeh.ok "reply"⟩ =
      { connectCalls := 0, connectOk := false, releaseCalls := 0,
        publishCalls := 0, printed := [publishErrMsg ++ brokerNotFoundMsg],
        exitCode := 1 } ∧
    ((publish ⟨"main:app", "hello", true, true, "", true,
        PublishBeh.ok "reply"⟩).printed = ["reply"] ∧
      (publish ⟨"main:app", "hello", true, true, "", true,
        PublishBeh.ok "reply"⟩).exitCode = 0) ∧
    ((publish ⟨"main:app", "hello", false, true, "", true,
        PublishBeh.ok "reply"⟩).printed = [] ∧
      (publish ⟨"main:app", "hello", false, true, "", true,
        PublishBeh.ok "reply"⟩).exitCode = 0) :=
  ⟨(publish_command_outcomes
      ⟨"main:app", "hello", false, true, "", false, PublishBeh.ok "reply"⟩
      (by decide) (by decide) rfl).1 rfl,
   (publish_command_outcomes
      ⟨"main:app", "hello", true, true, "", true, PublishBeh.ok "reply"⟩
      (by decide) (by decide) rfl).2.1 "reply" rfl rfl rfl,
   (publish_command_outcomes
      ⟨"main:app", "hello", false, true, "", true, PublishBeh.ok "reply"⟩
      (by decide) (by decide) rfl).2.2 "reply" rfl rfl rfl⟩

/-- C8: with valid arguments and a broker present, any exception during
connect, publish or reply-wait makes the publish command release an acquired
connection, print exactly one diagnostic line, exit with the non-zero code 1,
and attempt connect exactly once and publish at most once (no retries). -/
theorem publish_failure_cleanup (inp : PublishInput)
    (h1 : inp.appStr ≠ "") (h2 : inp.message ≠ "") (h3 : inp.importOk = true)
    (h4 : inp.hasBroker = true) (h5 : behRaises inp.beh = true) :
    ((publish inp).connectOk = true → (publish inp).releaseCalls = 1) ∧
    (publish inp).printed.length = 1 ∧
    (publish inp).exitCode = 1 ∧
    (publish inp).connectCalls = 1 ∧
    (publish inp).publishCalls ≤ 1 := by
  rcases inp with ⟨a, m, rpc, imp, iem, hb, beh⟩
  simp only at h1 h2 h3 h4 h5 ⊢
  subst h3 h4
  cases beh with
  | connectRaises m0 => simp [publish, publish_message, h1, h2]
  | publishRaises m0 => simp [publish, publish_message, h1, h2]
  | ok r => simp [behRaises] at h5

/-- Witness for C8 at a publish that raises after the connection was
acquired. -/
theorem publish_failure_cleanup_witness :
    (publish ⟨"main:app", "hello", true, true, "", true,
        PublishBeh.publishRaises "boom"⟩).releaseCalls = 1 ∧
    (publish ⟨"main:app", "hello", true, true, "", true,
        PublishBeh.publishRaises "boom"⟩).printed.length = 1 ∧
    (publish ⟨"main:app", "hello", true, true, "", true,
        PublishBeh.publishRaises "boom"⟩).exitCode = 1 ∧
    (publish ⟨"main:app", "hello", true, true, "", true,
        PublishBeh.publishRaises "boom"⟩).connectCalls = 1 ∧
    (publish ⟨"main:app", "hello", true, true, "", true,
        PublishBeh.publishRaises "boom"⟩).publishCalls ≤ 1 :=
  let h := publish_failure_cleanup
    ⟨"main:app", "hello", true, true, "", true, PublishBeh.publishRaises "boom"⟩
    (by decide) (by decide) rfl rfl rfl
  ⟨h.1 rfl, h.2.1, h.2.2.1, h.2.2.2.1, h.2.2.2.2⟩

end Faststream
